import Mathlib

/-!
Verification of the YieldGuard AI risk and exit engine.

This file shallowly embeds the deterministic computation core of the
repository in Lean 4 and proves the specified properties about it:

* the PulseScore engine of js/risk-core.js (calculatePulseScore and its
  helper _daysUntilDate),
* the exit comparator of js/exit-optimizer.js (calculateRedemptionPath,
  calculateMarketPath, calculateLiquidityGain, _calculateBreakeven,
  _scenarioAnalysis), and
* the tax CSV exporter of js/audit-manager.js (generateTaxCSV together
  with calculateTaxLiability).

Modelling conventions: JavaScript numbers are modelled as exact rationals
(the scores themselves only involve integer arithmetic and are modelled
as integers); absent (undefined) object fields are modelled as Option;
dates are modelled as integer millisecond timestamps, with the current
time passed in explicitly as a parameter named now.  Number.prototype
toFixed is modelled on exact rationals: scale, round to nearest with
half-way cases away from the sign split, unscale.  The single-character
regex replace of the CSV escaper is modelled as a character-level map.
-/

namespace YieldGuard

/-! ## risk-core.js : the PulseScore engine -/

/-- A protocol metrics snapshot, as handed to calculatePulseScore.
In the source this is a plain object carrying a protocol tag string and
numeric fields; fields that a given variant does not carry are undefined,
which Option models.  The maturity date is an epoch-millisecond instant. -/
structure ProtocolData where
  protocol : String
  maturityDate : Option Int := none
  cooldownDays : Option ℚ := none
  fundingRate : Option ℚ := none
  depegRisk : Option ℚ := none
  confidence : Option ℚ := none
deriving Repr, DecidableEq

/-- _daysUntilDate: whole days from now until the given instant, i.e. the
ceiling of the millisecond difference divided by one day (1000*60*60*24). -/
def daysUntilDate (now date : Int) : Int :=
  ⌈((date - now : Int) : ℚ) / 86400000⌉

/-- Factor 1 for Pendle: penalty from days to maturity.  An undefined
maturity date yields NaN day counts in the source, so every comparison is
false and no penalty applies; that is the none branch here. -/
def pendleTemporalPenalty (now : Int) (maturityDate : Option Int) : Int :=
  match maturityDate with
  | none => 0
  | some d =>
    let daysToMaturity := daysUntilDate now d
    if daysToMaturity < 1 then 30
    else if daysToMaturity < 3 then 20
    else if daysToMaturity < 7 then 10
    else 0

/-- Factor 1 for Falcon: penalty from the cooldown window.  An undefined
cooldownDays compares false against every bound in the source (NaN), so
no penalty applies. -/
def falconCooldownPenalty (cooldownDays : Option ℚ) : Int :=
  match cooldownDays with
  | none => 0
  | some c =>
    if c < 3 then 25
    else if c < 5 then 15
    else if c < 7 then 5
    else 0

/-- Ethena funding-rate sub-penalty of factor 2, on the absolute value of
the funding rate.  An undefined funding rate gives NaN comparisons in the
source, hence no penalty. -/
def fundingRatePenalty (fundingRate : Option ℚ) : Int :=
  match fundingRate with
  | none => 0
  | some f =>
    if |f| > 1/20 then 20
    else if |f| > 1/50 then 10
    else 0

/-- Ethena de-peg sub-penalty of factor 2.  The source reads
protocolData.depegRisk with a JavaScript or-default of 0.01, so an absent
field and a zero field (both falsy) are replaced by 0.01. -/
def depegSubPenalty (depegRisk : Option ℚ) : Int :=
  let d : ℚ := match depegRisk with
    | none => 1/100
    | some x => if x = 0 then 1/100 else x
  if d > 1/50 then 15
  else if d > 1/100 then 8
  else 0

/-- Factor 3: liveness penalty, applied whenever confidence is defined. -/
def livenessPenalty (confidence : Option ℚ) : Int :=
  match confidence with
  | none => 0
  | some c =>
    if c < 4/5 then 30
    else if c < 9/10 then 15
    else if c < 19/20 then 5
    else 0

/-- calculatePulseScore: starts at 100, subtracts the applicable penalty
factors (temporal risk for Pendle or Falcon, de-peg deviation for Ethena,
liveness for any variant with confidence defined) and clamps the result
to the range 0..100.  A null input scores 0. -/
def calculatePulseScore (now : Int) (protocolData : Option ProtocolData) : Int :=
  match protocolData with
  | none => 0
  | some pd =>
    let tPendle := if pd.protocol = "Pendle" then pendleTemporalPenalty now pd.maturityDate else 0
    let tFalcon := if pd.protocol = "Falcon" then falconCooldownPenalty pd.cooldownDays else 0
    let dEthena := if pd.protocol = "Ethena" then
        fundingRatePenalty pd.fundingRate + depegSubPenalty pd.depegRisk else 0
    let live := livenessPenalty pd.confidence
    max 0 (min 100 (100 - tPendle - tFalcon - dEthena - live))

/-- The adversarial Ethena snapshot of the spec: funding rate 1.0, de-peg
risk 1.0, confidence 0. -/
def ethenaStressInput : ProtocolData where
  protocol := "Ethena"
  fundingRate := some 1
  depegRisk := some 1
  confidence := some 0

/-- A Pendle snapshot with full confidence and maturity exactly seven
days (in milliseconds) after time zero. -/
def pendleSafeInput : ProtocolData where
  protocol := "Pendle"
  maturityDate := some 604800000
  confidence := some 1

/-- An Ethena snapshot with zero funding rate and full confidence, the
base point for comparing de-peg defaults. -/
def ethenaBaseInput : ProtocolData where
  protocol := "Ethena"
  fundingRate := some 0
  confidence := some 1

/-! ## exit-optimizer.js : the exit comparator

Display-only string fields of the source result objects (strategy,
timeToLiquidity, risks, the breakeven description, dex) are omitted; all
numeric fields are kept.  Fields the source formats with
Number.prototype.toFixed are modelled by jsToFixed, which returns the
numeric value of that fixed-decimal string. -/

/-- The numeric value of the JavaScript string x.toFixed(digits): for a
negative x the sign is split off first, then the scaled magnitude is
rounded to the nearest integer, half-way cases upward. -/
def jsToFixed (digits : Nat) (q : ℚ) : ℚ :=
  if q < 0 then -(((⌊(-q) * 10 ^ digits + 1/2⌋ : Int) : ℚ) / 10 ^ digits)
  else ((⌊q * 10 ^ digits + 1/2⌋ : Int) : ℚ) / 10 ^ digits

/-- The ExitOptimizer configuration, with the constructor defaults
(slippage 0.4 percent, flat 5 USD gas, daily yield rate 0.024) and the
three fixed de-peg stress levels (0 percent, 0.5 percent, 2 percent). -/
structure ExitConfig where
  slippageEstimate : ℚ := 4/1000
  gasEstimate : ℚ := 5
  dailyYieldRate : ℚ := 24/1000
  depegBest : ℚ := 0
  depegMid : ℚ := 5/1000
  depegWorst : ℚ := 1/50
deriving Repr, DecidableEq

/-- The configuration the repository instantiates the optimizer with,
identical to the constructor defaults. -/
def defaultExitConfig : ExitConfig := {}

/-- A redemption quote: protocol NAV and cooldown length. -/
structure RedemptionData where
  nav : ℚ
  cooldownDays : ℚ
deriving Repr, DecidableEq

/-- A market quote: DEX price and available liquidity. -/
structure MarketData where
  price : ℚ
  liquidity : ℚ
deriving Repr, DecidableEq

/-- Result of calculateRedemptionPath. -/
structure RedemptionPath where
  amount : ℚ
  nav : ℚ
  finalValue : ℚ
  yieldAccrued : ℚ
  haircut : ℚ
  fees : ℚ
  cooldownDays : ℚ
deriving Repr, DecidableEq

/-- Result of calculateMarketPath.  The haircut field is the source's
(slippageEstimate * 100).toFixed(2). -/
structure MarketPath where
  amount : ℚ
  price : ℚ
  finalValue : ℚ
  slippageLoss : ℚ
  gasEstimate : ℚ
  totalCost : ℚ
  haircut : ℚ
deriving Repr, DecidableEq

/-- The comparator's recommendation values. -/
inductive Recommendation where
  | WAIT
  | EXIT_NOW
deriving Repr, DecidableEq

/-- The three fixed de-peg stress scenarios. -/
inductive Scenario where
  | best
  | mid
  | worst
deriving Repr, DecidableEq

/-- Lookup into the configured depegRiskScenarios table. -/
def scenarioDepeg (cfg : ExitConfig) : Scenario → ℚ
  | Scenario.best => cfg.depegBest
  | Scenario.mid => cfg.depegMid
  | Scenario.worst => cfg.depegWorst

/-- The capitalized scenario name the source builds with charAt and
toUpperCase. -/
def scenarioLabel : Scenario → String
  | Scenario.best => "Best"
  | Scenario.mid => "Mid"
  | Scenario.worst => "Worst"

/-- One row of the scenario analysis; depegPercent, redemptionValue,
marketValue and gainLoss are toFixed(2) formatted in the source. -/
structure ScenarioResult where
  scenario : String
  depegPercent : ℚ
  redemptionValue : ℚ
  marketValue : ℚ
  recommendation : Recommendation
  gainLoss : ℚ
deriving Repr, DecidableEq

/-- Result of calculateLiquidityGain; percentDifference and the breakeven
percentage are toFixed(2) formatted in the source, netDifference is raw.
The source nests the three scenario rows under an analysis object; here
they are the bestCase, midCase and worstCase fields. -/
structure LiquidityGain where
  liquidityGainHours : ℚ
  netDifference : ℚ
  percentDifference : ℚ
  recommendation : Recommendation
  breakevenDepegPercent : ℚ
  bestCase : ScenarioResult
  midCase : ScenarioResult
  worstCase : ScenarioResult
deriving Repr, DecidableEq

/-- calculateRedemptionPath: yield accrues at the daily rate over the
cooldown, final value is amount times NAV plus that yield; no fees and no
haircut. -/
def calculateRedemptionPath (cfg : ExitConfig) (amount : ℚ)
    (redemptionData : RedemptionData) : RedemptionPath :=
  let nav := redemptionData.nav
  let cooldownDays := redemptionData.cooldownDays
  let yieldAccrued := amount * cfg.dailyYieldRate * cooldownDays
  { amount := amount
    nav := nav
    finalValue := amount * nav + yieldAccrued
    yieldAccrued := yieldAccrued
    haircut := 0
    fees := 0
    cooldownDays := cooldownDays }

/-- calculateMarketPath: slippage is proportional to the gross proceeds,
gas is a flat cost, final value is gross proceeds minus both. -/
def calculateMarketPath (cfg : ExitConfig) (amount : ℚ)
    (marketData : MarketData) : MarketPath :=
  let price := marketData.price
  let slippageLoss := amount * price * cfg.slippageEstimate
  let finalValue := amount * price - slippageLoss - cfg.gasEstimate
  { amount := amount
    price := price
    finalValue := finalValue
    slippageLoss := slippageLoss
    gasEstimate := cfg.gasEstimate
    totalCost := slippageLoss + cfg.gasEstimate
    haircut := jsToFixed 2 (cfg.slippageEstimate * 100) }

/-- _calculateBreakeven: the de-peg fraction at which waiting and exiting
break even, as an absolute percentage rounded to two decimals.  The
source's or-default on yieldAccrued is the identity on a numeric field
and is dropped. -/
def calculateBreakeven (redemptionPath : RedemptionPath)
    (marketPath : MarketPath) : ℚ :=
  let costOfWaiting := redemptionPath.yieldAccrued
  let costOfExiting := marketPath.totalCost
  let breakeven := (costOfExiting - costOfWaiting) / redemptionPath.amount
  jsToFixed 2 (|breakeven| * 100)

/-- _scenarioAnalysis: stress only the redemption side by the scenario's
de-peg fraction; the market side is quoted unchanged.  The recommendation
compares the unrounded values. -/
def scenarioAnalysis (cfg : ExitConfig) (redemptionPath : RedemptionPath)
    (marketPath : MarketPath) (scenario : Scenario) : ScenarioResult :=
  let depegRisk := scenarioDepeg cfg scenario
  let redemptionValue := redemptionPath.amount * (1 - depegRisk) + redemptionPath.yieldAccrued
  let marketValue := marketPath.finalValue
  { scenario := scenarioLabel scenario
    depegPercent := jsToFixed 2 (depegRisk * 100)
    redemptionValue := jsToFixed 2 redemptionValue
    marketValue := jsToFixed 2 marketValue
    recommendation := if redemptionValue > marketValue then Recommendation.WAIT
      else Recommendation.EXIT_NOW
    gainLoss := jsToFixed 2 (redemptionValue - marketValue) }

/-- calculateLiquidityGain: net difference of the two final values, a
strict-positivity recommendation, the percent difference relative to the
redemption value (no zero guard), the breakeven level, and the three
stress scenario rows. -/
def calculateLiquidityGain (cfg : ExitConfig) (redemptionPath : RedemptionPath)
    (marketPath : MarketPath) : LiquidityGain :=
  let cooldownHours := redemptionPath.cooldownDays * 24
  let redemptionValue := redemptionPath.finalValue
  let marketValue := marketPath.finalValue
  let netDifference := redemptionValue - marketValue
  let recommendation := if netDifference > 0 then Recommendation.WAIT
    else Recommendation.EXIT_NOW
  { liquidityGainHours := cooldownHours
    netDifference := netDifference
    percentDifference := jsToFixed 2 (netDifference / redemptionValue * 100)
    recommendation := recommendation
    breakevenDepegPercent := calculateBreakeven redemptionPath marketPath
    bestCase := scenarioAnalysis cfg redemptionPath marketPath Scenario.best
    midCase := scenarioAnalysis cfg redemptionPath marketPath Scenario.mid
    worstCase := scenarioAnalysis cfg redemptionPath marketPath Scenario.worst }

/-- The worked example of the spec: amount 100 against a redemption quote
of NAV 1 with a 7 day cooldown. -/
def redemptionQuoteEx : RedemptionData := { nav := 1, cooldownDays := 7 }

/-- The worked example of the spec: market quote at price 1. -/
def marketQuoteEx : MarketData := { price := 1, liquidity := 1000000 }

/-- The redemption path of the worked example. -/
def redemptionPathEx : RedemptionPath :=
  calculateRedemptionPath defaultExitConfig 100 redemptionQuoteEx

/-- The market path of the worked example. -/
def marketPathEx : MarketPath :=
  calculateMarketPath defaultExitConfig 100 marketQuoteEx

/-- The comparison result of the worked example. -/
def liquidityGainEx : LiquidityGain :=
  calculateLiquidityGain defaultExitConfig redemptionPathEx marketPathEx

/-- A one-token redemption path with no accrued yield, used to exhibit
the scenario-table rounding. -/
def smallRedemptionPath : RedemptionPath :=
  calculateRedemptionPath defaultExitConfig 1 { nav := 1, cooldownDays := 0 }

/-- The market path for the one-token example. -/
def smallMarketPath : MarketPath :=
  calculateMarketPath defaultExitConfig 1 { price := 1, liquidity := 1000000 }

/-- A pair of handcrafted paths with equal final value 50, witnessing the
tie case of the recommendation rule. -/
def tieRedemptionPath : RedemptionPath :=
  { amount := 100, nav := 1, finalValue := 50, yieldAccrued := 0,
    haircut := 0, fees := 0, cooldownDays := 7 }

/-- The market-side path of the tie example, also with final value 50. -/
def tieMarketPath : MarketPath :=
  { amount := 100, price := 1, finalValue := 50, slippageLoss := 0,
    gasEstimate := 5, totalCost := 5, haircut := 0 }

/-! ## audit-manager.js : the tax CSV exporter -/

/-- One logged yield record as generateTaxCSV reads it.  RewardAmount is
parsed to a number; the exchange rate and risk score keep their
possibly-absent shape because the source applies falsy or-defaults to
them (an absent or zero exchange rate becomes 1.0, an absent or zero
risk score becomes the text N/A). -/
structure YieldLog where
  Timestamp : String
  Asset : String
  Protocol : String
  RewardAmount : ℚ
  ExchangeRate : Option ℚ
  RiskScore : Option Int
deriving Repr, DecidableEq

/-- Decimal string of a natural number, left padded with zeros to the
given width. -/
def padLeftZeros (width : Nat) (s : String) : String :=
  String.mk (List.replicate (width - s.length) '0') ++ s

/-- Number.prototype.toFixed on a nonnegative rational: scale by the
digit count, round to the nearest integer (half-way cases up), and print
integer and padded fraction parts. -/
def toFixedPosString (digits : Nat) (q : ℚ) : String :=
  let n : Nat := (⌊q * 10 ^ digits + 1/2⌋).toNat
  if digits = 0 then toString n
  else toString (n / 10 ^ digits) ++ "." ++ padLeftZeros digits (toString (n % 10 ^ digits))

/-- Number.prototype.toFixed as a string: a negative number prints as the
sign followed by the rendering of its negation. -/
def toFixedString (digits : Nat) (q : ℚ) : String :=
  if q < 0 then "-" ++ toFixedPosString digits (-q) else toFixedPosString digits q

/-- The character-level meaning of the source's global regex replace of
one double quote by two. -/
def escapeQuotesList : List Char → List Char
  | [] => []
  | c :: cs =>
    if c = '"' then '"' :: '"' :: escapeQuotesList cs
    else c :: escapeQuotesList cs

/-- CSV cell encoding used by generateTaxCSV: double every double quote,
then wrap the cell in double quotes when the escaped text contains a
comma. -/
def csvCell (cell : String) : String :=
  let escaped := String.mk (escapeQuotesList cell.data)
  if ',' ∈ escaped.data then "\"" ++ escaped ++ "\"" else escaped

/-- The header cells generateTaxCSV pushes first, with the export
currency interpolated into the fifth label. -/
def taxCSVHeader (currency : String) : List String :=
  ["Timestamp", "Asset", "Protocol", "Reward Amount (Crypto)",
   "Value at Receipt (" ++ currency ++ ")", "Exchange Rate", "Tax Liability",
   "Risk Score at Time"]

/-- calculateTaxLiability: a flat 30 percent effective rate for Kenya,
20 percent otherwise. -/
def calculateTaxLiability (locationKE : Bool) (costBasisLocal : ℚ) : ℚ :=
  costBasisLocal * (if locationKE then 30/100 else 20/100)

/-- The cells of one data row of generateTaxCSV: timestamp, asset and
protocol verbatim, the reward amount to eight decimals, the local value
and tax liability to two, the exchange rate to four, and the risk score
or N/A. -/
def taxCSVRow (locationKE : Bool) (log : YieldLog) : List String :=
  let amount := log.RewardAmount
  let exchangeRate : ℚ := match log.ExchangeRate with
    | none => 1
    | some r => if r = 0 then 1 else r
  let valueLocal := amount * exchangeRate
  let taxLiability := calculateTaxLiability locationKE valueLocal
  let riskScore : String := match log.RiskScore with
    | none => "N/A"
    | some s => if s = 0 then "N/A" else toString s
  [log.Timestamp, log.Asset, log.Protocol, toFixedString 8 amount,
   toFixedString 2 valueLocal, toFixedString 4 exchangeRate,
   toFixedString 2 taxLiability, riskScore]

/-- generateTaxCSV: the header row followed by one row per logged record,
each row's cells CSV-escaped and joined with commas, and the rows joined
with newlines. -/
def generateTaxCSV (locationKE : Bool) (currency : String)
    (yieldLogs : List YieldLog) : String :=
  let csvRows := taxCSVHeader currency :: yieldLogs.map (taxCSVRow locationKE)
  String.intercalate "\n"
    (csvRows.map (fun row => String.intercalate "," (row.map csvCell)))

/-- The field-quoting rule in the words of the amended claim: a field is
wrapped in double quotes exactly when it contains a comma, and embedded
double quotes are doubled. -/
def claimedQuoteField (field : String) : String :=
  if ',' ∈ field.data then "\"" ++ String.mk (escapeQuotesList field.data) ++ "\""
  else String.mk (escapeQuotesList field.data)

/-- The CSV layout in the words of the amended claim: exactly one literal
header line carrying the eight column labels the exporter prints, then
one line per logged record built from that record's row cells under the
quoting rule, lines separated by newlines. -/
def claimedTaxCSV (locationKE : Bool) (currency : String)
    (yieldLogs : List YieldLog) : String :=
  let headerLine := "Timestamp,Asset,Protocol,Reward Amount (Crypto),Value at Receipt ("
      ++ currency ++ "),Exchange Rate,Tax Liability,Risk Score at Time"
  let lines := headerLine :: yieldLogs.map (fun log =>
    String.intercalate "," ((taxCSVRow locationKE log).map claimedQuoteField))
  String.intercalate "\n" lines

/-- A sample logged record whose asset label contains a comma. -/
def sampleYieldLog : YieldLog where
  Timestamp := "2025-01-01T00:00:00.000Z"
  Asset := "sUSDe, staked"
  Protocol := "Ethena"
  RewardAmount := 5/2
  ExchangeRate := some 129
  RiskScore := some 85

/-! ## Helper lemmas -/

/-- Doubling quote characters neither adds nor removes commas. -/
theorem comma_mem_escapeQuotesList (l : List Char) :
    ',' ∈ escapeQuotesList l ↔ ',' ∈ l := by
  induction l with
  | nil => simp [escapeQuotesList]
  | cons c cs ih =>
    by_cases hc : c = '"'
    · subst hc
      simp [escapeQuotesList, ih]
    · simp [escapeQuotesList, hc, ih]

/-- The source's escape-then-test cell encoding agrees with the claim's
test-then-escape description of a field. -/
theorem csvCell_eq_claimedQuoteField (s : String) :
    csvCell s = claimedQuoteField s := by
  unfold csvCell claimedQuoteField
  by_cases h : ',' ∈ s.data
  · rw [if_pos ((comma_mem_escapeQuotesList s.data).mpr h), if_pos h]
  · rw [if_neg (fun hx => h ((comma_mem_escapeQuotesList s.data).mp hx)), if_neg h]

/-! ## Claim theorems -/

/-- C1: for every input (any variant, any field values, any current time)
the PulseScore is an integer between 0 and 100, and the adversarial
Ethena snapshot with fundingRate 1.0, depegRisk 1.0 and confidence 0
scores exactly 35 = 100 - 20 - 15 - 30 after clamping. -/
theorem pulseScore_bounded_and_ethena_stacking :
    (∀ (now : Int) (pd : Option ProtocolData),
      0 ≤ calculatePulseScore now pd ∧ calculatePulseScore now pd ≤ 100) ∧
    (∀ now : Int, calculatePulseScore now (some ethenaStressInput) = 35) := by
  constructor
  · intro now pd
    cases pd with
    | none => simp [calculatePulseScore]
    | some pd =>
      simp only [calculatePulseScore]
      constructor
      · exact le_max_left 0 _
      · exact le_trans (max_le (by norm_num) (min_le_left 100 _)) (le_refl 100)
  · intro now
    simp [calculatePulseScore, ethenaStressInput, fundingRatePenalty,
      depegSubPenalty, livenessPenalty]
    norm_num

/-- C2: on the worked example the redemption path is worth 116.8, the
market path 94.6, the net difference 22.2, and the recommendation is
WAIT. -/
theorem compare_defaults_concrete :
    redemptionPathEx.finalValue = 116.8 ∧
    marketPathEx.finalValue = 94.6 ∧
    liquidityGainEx.netDifference = 22.2 ∧
    liquidityGainEx.recommendation = Recommendation.WAIT := by
  refine ⟨?_, ?_, ?_, ?_⟩ <;>
    norm_num [redemptionPathEx, marketPathEx, liquidityGainEx, redemptionQuoteEx,
      marketQuoteEx, calculateRedemptionPath, calculateMarketPath,
      calculateLiquidityGain, defaultExitConfig]

/-- C3 counterexample: on the worked example the returned
percentDifference is the two-decimal rounding 19.01, not the exact ratio
22.2 / 116.8 * 100, so the claim's unrounded equation fails. -/
theorem percentDifference_not_exact_ratio :
    liquidityGainEx.percentDifference ≠
      (redemptionPathEx.finalValue - marketPathEx.finalValue) /
        redemptionPathEx.finalValue * 100 := by
  norm_num [liquidityGainEx, redemptionPathEx, marketPathEx, redemptionQuoteEx,
    marketQuoteEx, calculateLiquidityGain, calculateRedemptionPath,
    calculateMarketPath, defaultExitConfig, jsToFixed]

/-- C3 amended: whenever the redemption final value is nonzero, the
returned percentDifference is netDifference / redemptionPath.finalValue
* 100 rounded to two decimals by toFixed; the formula is applied
unconditionally, with no special case for a zero redemption value. -/
theorem percentDifference_formula (cfg : ExitConfig) (redemptionPath : RedemptionPath)
    (marketPath : MarketPath) (_hnz : redemptionPath.finalValue ≠ 0) :
    (calculateLiquidityGain cfg redemptionPath marketPath).percentDifference =
      jsToFixed 2 ((redemptionPath.finalValue - marketPath.finalValue) /
        redemptionPath.finalValue * 100) := by
  rfl

/-- Witness for the amended C3 on the worked example, whose redemption
value 116.8 is nonzero. -/
theorem percentDifference_formula_witness :
    liquidityGainEx.percentDifference =
      jsToFixed 2 ((redemptionPathEx.finalValue - marketPathEx.finalValue) /
        redemptionPathEx.finalValue * 100) :=
  percentDifference_formula defaultExitConfig redemptionPathEx marketPathEx (by
    norm_num [redemptionPathEx, calculateRedemptionPath, redemptionQuoteEx,
      defaultExitConfig])

/-- C4 counterexample: in the mid scenario of the one-token comparison
the stored redemptionValue is the rounding 1.00 of 1 * (1 - 0.005) + 0 =
0.995, so the claim's unrounded field equation fails. -/
theorem scenario_redemptionValue_not_exact :
    (calculateLiquidityGain defaultExitConfig smallRedemptionPath
        smallMarketPath).midCase.redemptionValue ≠
      smallRedemptionPath.amount * (1 - 5/1000) + smallRedemptionPath.yieldAccrued := by
  norm_num [smallRedemptionPath, smallMarketPath, calculateLiquidityGain,
    calculateRedemptionPath, calculateMarketPath, scenarioAnalysis, scenarioDepeg,
    defaultExitConfig, jsToFixed]

/-- C4 amended: every scenario row stores the claim's redemptionValue,
marketValue and gainLoss formulas rounded to two decimals by toFixed; the
market side is the unstressed market final value in every scenario, and
the recommendation is WAIT exactly when the unrounded stressed redemption
value strictly exceeds it.  On the worked example the worst scenario
(2 percent de-peg) stores 114.8 and recommends WAIT. -/
theorem scenario_analysis_fields :
    (∀ (cfg : ExitConfig) (r : RedemptionPath) (m : MarketPath) (s : Scenario),
      (scenarioAnalysis cfg r m s).redemptionValue =
          jsToFixed 2 (r.amount * (1 - scenarioDepeg cfg s) + r.yieldAccrued) ∧
      (scenarioAnalysis cfg r m s).marketValue = jsToFixed 2 m.finalValue ∧
      ((scenarioAnalysis cfg r m s).recommendation = Recommendation.WAIT ↔
          r.amount * (1 - scenarioDepeg cfg s) + r.yieldAccrued > m.finalValue) ∧
      (scenarioAnalysis cfg r m s).gainLoss =
          jsToFixed 2 (r.amount * (1 - scenarioDepeg cfg s) + r.yieldAccrued
            - m.finalValue)) ∧
    liquidityGainEx.worstCase.redemptionValue = 114.8 ∧
    liquidityGainEx.worstCase.recommendation = Recommendation.WAIT := by
  refine ⟨fun cfg r m s => ⟨rfl, rfl, ?_, rfl⟩, ?_, ?_⟩
  · unfold scenarioAnalysis
    by_cases h : r.amount * (1 - scenarioDepeg cfg s) + r.yieldAccrued > m.finalValue
    · simp [h]
    · simp [h]
  · norm_num [liquidityGainEx, redemptionPathEx, marketPathEx, redemptionQuoteEx,
      marketQuoteEx, calculateLiquidityGain, calculateRedemptionPath,
      calculateMarketPath, scenarioAnalysis, scenarioDepeg, defaultExitConfig,
      jsToFixed]
  · norm_num [liquidityGainEx, redemptionPathEx, marketPathEx, redemptionQuoteEx,
      marketQuoteEx, calculateLiquidityGain, calculateRedemptionPath,
      calculateMarketPath, scenarioAnalysis, scenarioDepeg, defaultExitConfig,
      jsToFixed]

/-- C5: a null metrics input scores 0, a defined fallback value rather
than an error. -/
theorem pulseScore_null_is_zero :
    ∀ now : Int, calculatePulseScore now none = 0 := by
  intro now
  rfl

/-- C6: a maturity date strictly in the past gives a whole-day count
below 1 (the ceiling of a nonpositive ratio), so the Pendle temporal
factor applies the maximum 30 point penalty. -/
theorem pastMaturity_max_temporal_penalty (now mat : Int) (h : mat < now) :
    daysUntilDate now mat < 1 ∧ pendleTemporalPenalty now (some mat) = 30 := by
  have hq : ((mat - now : Int) : ℚ) / 86400000 ≤ 0 := by
    apply div_nonpos_of_nonpos_of_nonneg
    · exact_mod_cast sub_nonpos.mpr h.le
    · norm_num
  have hd : daysUntilDate now mat < 1 := by
    unfold daysUntilDate
    have h0 : (⌈((mat - now : Int) : ℚ) / 86400000⌉ : Int) ≤ 0 :=
      Int.ceil_le.mpr (by exact_mod_cast hq)
    omega
  refine ⟨hd, ?_⟩
  simp only [pendleTemporalPenalty]
  rw [if_pos hd]

/-- Witness for C6 at now = 1 and maturity 0. -/
theorem pastMaturity_max_temporal_penalty_witness :
    (0 : Int) < 1 ∧
      (daysUntilDate 1 0 < 1 ∧ pendleTemporalPenalty 1 (some 0) = 30) :=
  ⟨by decide, pastMaturity_max_temporal_penalty 1 0 (by decide)⟩

/-- C7: a Pendle snapshot with confidence at least 0.95 and maturity at
least seven whole days (in milliseconds) after the current time scores
exactly 100: the temporal penalty, the liveness penalty and the de-peg
penalty (never charged to the Pendle variant) are all zero. -/
theorem pendle_far_maturity_full_score (now mat : Int) (conf : ℚ)
    (pd : ProtocolData) (hp : pd.protocol = "Pendle")
    (hm : pd.maturityDate = some mat) (hc : pd.confidence = some conf)
    (hconf : 19/20 ≤ conf) (hmat : now + 7 * 86400000 ≤ mat) :
    calculatePulseScore now (some pd) = 100 := by
  have hdays : (7 : Int) ≤ daysUntilDate now mat := by
    have h6 : (6 : Int) < daysUntilDate now mat := by
      unfold daysUntilDate
      rw [Int.lt_ceil]
      rw [lt_div_iff₀ (by norm_num : (0 : ℚ) < 86400000)]
      have h1 : (604800000 : Int) ≤ mat - now := by omega
      have h2 : (604800000 : ℚ) ≤ ((mat - now : Int) : ℚ) := by exact_mod_cast h1
      push_cast at h2 ⊢
      linarith
    omega
  have htemp : pendleTemporalPenalty now (some mat) = 0 := by
    simp only [pendleTemporalPenalty]
    rw [if_neg (by omega), if_neg (by omega), if_neg (by omega)]
  have hlive : livenessPenalty (some conf) = 0 := by
    simp only [livenessPenalty]
    rw [if_neg (by simp only [not_lt]; linarith),
      if_neg (by simp only [not_lt]; linarith),
      if_neg (by simp only [not_lt]; linarith)]
  simp [calculatePulseScore, hp, hm, hc, htemp, hlive]

/-- Witness for C7: the concrete Pendle snapshot with full confidence
and maturity exactly seven days after time zero scores 100. -/
theorem pendle_far_maturity_full_score_witness :
    calculatePulseScore 0 (some pendleSafeInput) = 100 :=
  pendle_far_maturity_full_score 0 604800000 1 pendleSafeInput rfl rfl rfl
    (by norm_num) (by decide)

/-- C8: the comparator recommends WAIT exactly when the redemption final
value strictly exceeds the market final value; in particular a tie yields
EXIT_NOW. -/
theorem recommendation_iff_positive_net (cfg : ExitConfig)
    (redemptionPath : RedemptionPath) (marketPath : MarketPath) :
    ((calculateLiquidityGain cfg redemptionPath marketPath).recommendation =
        Recommendation.WAIT ↔
      redemptionPath.finalValue - marketPath.finalValue > 0) ∧
    (redemptionPath.finalValue = marketPath.finalValue →
      (calculateLiquidityGain cfg redemptionPath marketPath).recommendation =
        Recommendation.EXIT_NOW) := by
  constructor
  · unfold calculateLiquidityGain
    by_cases h : redemptionPath.finalValue - marketPath.finalValue > 0
    · simp [h]
    · simp [h]
  · intro he
    unfold calculateLiquidityGain
    simp [he]

/-- Witness for C8: on the tie example with equal final values 50 the
recommendation is EXIT_NOW. -/
theorem recommendation_iff_positive_net_witness :
    (calculateLiquidityGain defaultExitConfig tieRedemptionPath
        tieMarketPath).recommendation = Recommendation.EXIT_NOW :=
  (recommendation_iff_positive_net defaultExitConfig tieRedemptionPath
    tieMarketPath).2 (by norm_num [tieRedemptionPath, tieMarketPath])

/-- C9 counterexample: with no logged records the generated CSV is its
header row alone, and that row carries the labels the exporter actually
prints, not the claim's column names. -/
theorem taxCSV_header_labels_differ :
    generateTaxCSV true "KES" [] ≠
      "Timestamp,Asset,Protocol,RewardAmount,ValueLocal,ExchangeRate,TaxLiability,RiskScoreAtTime" := by
  decide

/-- C9 amended: for the export currencies the page offers (KES and USD)
the generated CSV is exactly one header line carrying the labels
Timestamp, Asset, Protocol, Reward Amount (Crypto), Value at Receipt
(currency), Exchange Rate, Tax Liability, Risk Score at Time, followed by
one line per logged record, fields comma-separated, a field wrapped in
double quotes exactly when it contains a comma and embedded double
quotes doubled. -/
theorem generateTaxCSV_matches_claimed_format (locationKE : Bool)
    (currency : String) (yieldLogs : List YieldLog)
    (hcur : currency = "KES" ∨ currency = "USD") :
    generateTaxCSV locationKE currency yieldLogs =
      claimedTaxCSV locationKE currency yieldLogs := by
  have hcell : csvCell = claimedQuoteField := funext csvCell_eq_claimedQuoteField
  unfold generateTaxCSV claimedTaxCSV
  rw [hcell]
  simp only [List.map_cons, List.map_map, Function.comp]
  congr 2
  cases hcur with
  | inl h => subst h; decide
  | inr h => subst h; decide

/-- Witness for the amended C9 on a log whose asset label contains a
comma, exported in KES. -/
theorem generateTaxCSV_matches_claimed_format_witness :
    generateTaxCSV true "KES" [sampleYieldLog] =
      claimedTaxCSV true "KES" [sampleYieldLog] :=
  generateTaxCSV_matches_claimed_format true "KES" [sampleYieldLog] (Or.inl rfl)

/-- C10: an absent, zero or exactly 0.01 de-peg risk all fall back to (or
equal) the default 0.01, which does not pass the strict 0.01 threshold:
the de-peg sub-penalty is 0 in each case, and an Ethena snapshot scores
the same under all three values of the field. -/
theorem depeg_default_and_zero_equivalent :
    depegSubPenalty none = 0 ∧ depegSubPenalty (some 0) = 0 ∧
    depegSubPenalty (some (1/100)) = 0 ∧
    (∀ (now : Int) (pd : ProtocolData), pd.protocol = "Ethena" →
      calculatePulseScore now (some { pd with depegRisk := none }) =
        calculatePulseScore now (some { pd with depegRisk := some (1/100) }) ∧
      calculatePulseScore now (some { pd with depegRisk := some 0 }) =
        calculatePulseScore now (some { pd with depegRisk := some (1/100) })) := by
  have h0 : depegSubPenalty none = 0 := by norm_num [depegSubPenalty]
  have h1 : depegSubPenalty (some 0) = 0 := by norm_num [depegSubPenalty]
  have h2 : depegSubPenalty (some (1/100)) = 0 := by norm_num [depegSubPenalty]
  have h2i : depegSubPenalty (some ((100 : ℚ)⁻¹)) = 0 := by
    norm_num [depegSubPenalty]
  refine ⟨h0, h1, h2, ?_⟩
  intro now pd hp
  constructor <;>
    simp [calculatePulseScore, hp, h0, h1, h2, h2i]

/-- Witness for C10: the base Ethena snapshot scores the same with the
de-peg field absent as with it set to 0.01. -/
theorem depeg_default_and_zero_equivalent_witness :
    calculatePulseScore 0 (some { ethenaBaseInput with depegRisk := none }) =
      calculatePulseScore 0 (some { ethenaBaseInput with depegRisk := some (1/100) }) :=
  (depeg_default_and_zero_equivalent.2.2.2 0 ethenaBaseInput rfl).1

end YieldGuard